import Mathlib

/-!
Verification of the "advantages-of-type-annotations" notebook.

The notebook defines two variants of a `signature` extractor (an AST-based
one reading annotation text from the source, and an attribute-based one
reading the evaluated `__annotations__` mapping), a randomized safety
checker `safe`, and the example callables `double`, `triple` and `floor`.
This file shallowly embeds that code and proves the specified properties.
-/

namespace TypeAnnotDemo

/-- The Python runtime types that appear in the material: `int`, `float`,
`str`.  The attribute-based extractor yields such evaluated type objects. -/
inductive PyType
  | int
  | float
  | str
deriving DecidableEq, Repr

/-- The `__name__` of a type object, used for the string-comparison check
`type(123).__name__ == "int"` shown in the notebook. -/
def PyType.name : PyType → String
  | .int => "int"
  | .float => "float"
  | .str => "str"

/-- Python runtime values of the three types.  Python floats are modelled
as rationals: the claims under check depend only on order, truncation and
instance checks, none of which involve rounding. -/
inductive PyVal
  | vint : Int → PyVal
  | vfloat : ℚ → PyVal
  | vstr : String → PyVal
deriving DecidableEq, Repr

/-- The kinds of exception the embedded code can raise. -/
inductive PyErr
  | nameError
  | assertionError
  | typeError
  | indexError
  | keyError
  | attributeError
deriving DecidableEq, Repr

/-- Model of `isinstance(v, t)` for the modelled values and types. -/
def isinstance : PyVal → PyType → Bool
  | .vint _, .int => true
  | .vfloat _, .float => true
  | .vstr _, .str => true
  | _, _ => false

/-! ### The two signature extractors -/

/-- The syntactic view of a function definition that the AST-based
extractor consumes: for each parameter its name and optional annotation
text (`arg.annotation` is `None` when absent), and the optional return
annotation text (`FunctionDef.returns`). -/
structure FuncDef where
  args : List (String × Option String)
  returns : Option String

/-- AST-based `signature`:

    a = ast.parse(inspect.getsource(f))
    type_in = a.body[0].args.args[0].annotation.id
    type_out = a.body[0].returns.id
    return (type_in, type_out)

`args[0]` on an empty parameter list raises IndexError; `.id` on a `None`
annotation raises AttributeError.  With several parameters only the first
is read. -/
def signatureAst (d : FuncDef) : Except PyErr (String × String) :=
  match d.args with
  | [] => .error .indexError
  | (_, none) :: _ => .error .attributeError
  | (_, some tIn) :: _ =>
    match d.returns with
    | none => .error .attributeError
    | some tOut => .ok (tIn, tOut)

/-- Attribute-based `signature`:

    a = f.__annotations__
    type_in = [a[k] for k in a if k != 'return'][0]
    type_out = a['return']
    return (type_in, type_out)

`__annotations__` is modelled as an association list in insertion order
(Python dicts preserve it).  `[...][0]` on an empty comprehension raises
IndexError; `a['return']` on a missing key raises KeyError.  With several
non-`return` keys the first is silently taken. -/
def signatureAttr (a : List (String × PyType)) : Except PyErr (PyType × PyType) :=
  match (a.filter (fun kv => kv.1 != "return")).head? with
  | none => .error .indexError
  | some (_, tIn) =>
    match a.lookup "return" with
    | none => .error .keyError
    | some tOut => .ok (tIn, tOut)

/-! ### Random input generation -/

/-- Model of `random.randint(a, b)`: an integer in `[a, b]`, modelled as a
deterministic function of a raw entropy value `s`. -/
def randint (a b : Int) (s : Nat) : Int :=
  a + ((s % (b - a + 1).toNat : Nat) : Int)

/-- Fractional part of a rational, `q - ⌊q⌋`; lands in `[0, 1)`. -/
def fract (q : ℚ) : ℚ := q - ⌊q⌋

/-- Model of `random.uniform(a, b) = a + (b - a) * random()`, with the `random()`
call in `[0, 1)` modelled as the fractional part of a raw entropy value. -/
def uniform (a b : ℚ) (s : ℚ) : ℚ := a + (b - a) * fract s

/-- The stream of raw entropy the random module consumes: one integer draw
and one real draw available per trial index. -/
structure RandomSource where
  ints : Nat → Nat
  reals : Nat → ℚ

/-- The input-generation step of one trial of `safe`:

    if type_in is int:
        value_in = random.randint(-2**16, (2**16)-1)
    if type_in is float:
        value_in = random.uniform(-2**16, (2**16)-1)

For any other input type neither branch runs and `value_in` stays unbound,
modelled as `none`. -/
def genValue (tIn : PyType) (g : RandomSource) (i : Nat) : Option PyVal :=
  match tIn with
  | .int => some (.vint (randint (-(2 : Int) ^ 16) ((2 : Int) ^ 16 - 1) (g.ints i)))
  | .float => some (.vfloat (uniform (-(2 : ℚ) ^ 16) ((2 : ℚ) ^ 16 - 1) (g.reals i)))
  | .str => none

/-! ### The safety checker -/

/-- The body of the `try` block of one trial:

    value_out = f(value_in)
    assert(isinstance(value_out, type_out))

Reading an unbound `value_in` raises NameError; a false `assert` raises
AssertionError; the callable may raise anything. -/
def tryBody (body : PyVal → Except PyErr PyVal) (tOut : PyType)
    (vIn : Option PyVal) : Except PyErr Unit :=
  match vIn with
  | none => .error .nameError
  | some v =>
    match body v with
    | .error e => .error e
    | .ok vOut => if isinstance vOut tOut then .ok () else .error .assertionError

/-- The trial loop of `safe`, indexed by the current trial number `i` and
the number `n` of trials still to run:

    for i in range(10000):
        ...
        try:
            value_out = f(value_in)
            assert(isinstance(value_out, type_out))
        except:
            return False
    return True

The bare `except:` converts any raised error into the result `False`. -/
def safeLoop (body : PyVal → Except PyErr PyVal) (tIn tOut : PyType)
    (g : RandomSource) : Nat → Nat → Except PyErr Bool
  | _, 0 => .ok true
  | i, n + 1 =>
    match tryBody body tOut (genValue tIn g i) with
    | .ok _ => safeLoop body tIn tOut g (i + 1) n
    | .error _ => .ok false

/-- A Python callable as `safe` sees it: its `__annotations__` mapping and
its body.  The body returns a value or raises. -/
structure PyFunc where
  annots : List (String × PyType)
  body : PyVal → Except PyErr PyVal

/-- Model of `safe(f)`: extract the signature with the attribute-based `signature`
(the binding in scope at the point `safe` is defined), then run the trials.
A failure of the extraction itself happens outside the `try` and so
propagates. -/
def safe (f : PyFunc) (g : RandomSource) : Except PyErr Bool :=
  match signatureAttr f.annots with
  | .error e => .error e
  | .ok (tIn, tOut) => safeLoop f.body tIn tOut g 0 10000

/-! ### The example callables of the notebook -/

/-- Syntactic definition of `double` under the alias `Number = int`:

    def double(x: Number) -> Number:
        return x + x
-/
def double_def : FuncDef := ⟨[("x", some "Number")], some "Number"⟩

/-- The mapping `double.__annotations__`: the alias evaluates to `int`, so the mapping
is `{'x': int, 'return': int}` as the notebook output shows. -/
def double_annots : List (String × PyType) := [("x", PyType.int), ("return", PyType.int)]

/-- Body of

    def triple(x: int) -> int:
        return x + x + x

`x + x + x` on an int is int addition, on a float float addition, on a
string concatenation. -/
def triple_body : PyVal → Except PyErr PyVal
  | .vint n => .ok (.vint (n + n + n))
  | .vfloat x => .ok (.vfloat (x + x + x))
  | .vstr s => .ok (.vstr (s ++ s ++ s))

/-- The callable `triple` with its annotation mapping. -/
def triple : PyFunc := ⟨[("x", PyType.int), ("return", PyType.int)], triple_body⟩

/-- Body of

    def floor(x: float) -> int:
        return int(x) if x > 0 else x

On a positive float, `int(x)` truncates toward zero, which is `⌊x⌋` for
`x > 0`; on an int, `int(x)` is the identity so both branches give `x`;
on a string, `x > 0` raises TypeError. -/
def floor_body : PyVal → Except PyErr PyVal
  | .vint n => .ok (if 0 < n then .vint n else .vint n)
  | .vfloat x => .ok (if 0 < x then .vint ⌊x⌋ else .vfloat x)
  | .vstr _ => .error .typeError

/-- The callable `floor` with its annotation mapping. -/
def floor : PyFunc := ⟨[("x", PyType.float), ("return", PyType.int)], floor_body⟩

/-- A callable whose declared input type is `str`, for which `safe` has no
generator branch: `def shout(x: str) -> str: return x`. -/
def shout : PyFunc := ⟨[("x", PyType.str), ("return", PyType.str)], fun v => .ok v⟩

/-! ### Basic lemmas about the loop -/

/-- One unfolding step of the trial loop. -/
lemma safeLoop_succ (body : PyVal → Except PyErr PyVal) (tIn tOut : PyType)
    (g : RandomSource) (i n : Nat) :
    safeLoop body tIn tOut g i (n + 1) =
      match tryBody body tOut (genValue tIn g i) with
      | .ok _ => safeLoop body tIn tOut g (i + 1) n
      | .error _ => .ok false := rfl

/-- The loop always produces a boolean: the bare `except` catches every
error raised inside a trial, so no exception escapes the loop. -/
lemma safeLoop_exists_ok (body : PyVal → Except PyErr PyVal) (tIn tOut : PyType)
    (g : RandomSource) : ∀ n i, ∃ b, safeLoop body tIn tOut g i n = .ok b := by
  intro n
  induction n with
  | zero => exact fun i => ⟨true, rfl⟩
  | succ n ih =>
    intro i
    rw [safeLoop_succ]
    cases h : tryBody body tOut (genValue tIn g i) with
    | ok u => exact ih (i + 1)
    | error e => exact ⟨false, rfl⟩

/-- The loop reports `True` exactly when every remaining trial passes. -/
lemma safeLoop_true_iff (body : PyVal → Except PyErr PyVal) (tIn tOut : PyType)
    (g : RandomSource) : ∀ n i, safeLoop body tIn tOut g i n = .ok true ↔
      ∀ j, j < n → tryBody body tOut (genValue tIn g (i + j)) = .ok () := by
  intro n
  induction n with
  | zero => exact fun i => ⟨fun _ j hj => absurd hj (Nat.not_lt_zero j), fun _ => rfl⟩
  | succ n ih =>
    intro i
    rw [safeLoop_succ]
    cases h : tryBody body tOut (genValue tIn g i) with
    | ok u =>
      rw [ih (i + 1)]
      constructor
      · intro hall j hj
        cases j with
        | zero => simpa using h
        | succ j =>
          have := hall j (by omega)
          simpa [Nat.add_assoc, Nat.add_comm 1 j] using this
      · intro hall j hj
        have := hall (j + 1) (by omega)
        simpa [Nat.add_assoc, Nat.add_comm 1 j] using this
    | error e =>
      constructor
      · intro hfalse; cases hfalse
      · intro hall
        have := hall 0 (by omega)
        simp [h] at this

/-- If some trial in the window fails, the loop reports `False`. -/
lemma safeLoop_false_of_fail (body : PyVal → Except PyErr PyVal) (tIn tOut : PyType)
    (g : RandomSource) (i n j : Nat) (hj : j < n)
    (hfail : tryBody body tOut (genValue tIn g (i + j)) ≠ .ok ()) :
    safeLoop body tIn tOut g i n = .ok false := by
  obtain ⟨b, hb⟩ := safeLoop_exists_ok body tIn tOut g n i
  cases b with
  | true => exact absurd ((safeLoop_true_iff body tIn tOut g n i).1 hb j hj) hfail
  | false => exact hb

/-- For a declared input type of `int` or `float` the generator yields a
value of that type. -/
lemma genValue_welltyped (tIn : PyType) (g : RandomSource) (i : Nat)
    (htin : tIn = PyType.int ∨ tIn = PyType.float) :
    ∃ v, genValue tIn g i = some v ∧ isinstance v tIn = true := by
  rcases htin with h | h <;> subst h
  · exact ⟨_, rfl, rfl⟩
  · exact ⟨_, rfl, rfl⟩

/-- A body that always returns a well-typed value passes every trial, so
the loop reports `True` from any start index and for any trial count. -/
lemma safeLoop_true_of_welltyped (body : PyVal → Except PyErr PyVal) (tIn tOut : PyType)
    (g : RandomSource)
    (htin : tIn = PyType.int ∨ tIn = PyType.float)
    (hbody : ∀ v, isinstance v tIn = true → ∃ w, body v = .ok w ∧ isinstance w tOut = true) :
    ∀ i n, safeLoop body tIn tOut g i n = .ok true := by
  intro i n
  rw [safeLoop_true_iff]
  intro j _
  obtain ⟨v, hv, hvt⟩ := genValue_welltyped tIn g (i + j) htin
  obtain ⟨w, hw, hwt⟩ := hbody v hvt
  simp [tryBody, hv, hw, hwt]

/-- Generation at one index only reads that index of the entropy stream. -/
lemma genValue_congr (tIn : PyType) (g gp : RandomSource) (j : Nat)
    (hints : g.ints j = gp.ints j) (hreals : g.reals j = gp.reals j) :
    genValue tIn g j = genValue tIn gp j := by
  cases tIn <;> simp [genValue, hints, hreals]

/-- The modelled `randint` stays in its inclusive bounds. -/
lemma randint_bounds (a b : Int) (s : Nat) (hab : a ≤ b) :
    a ≤ randint a b s ∧ randint a b s ≤ b := by
  unfold randint
  have hm : 0 < (b - a + 1).toNat := by omega
  have h1 : s % (b - a + 1).toNat < (b - a + 1).toNat := Nat.mod_lt _ hm
  omega

/-- The fractional part is nonnegative. -/
lemma fract_nonneg (q : ℚ) : 0 ≤ fract q := by
  unfold fract
  have := Int.floor_le q
  linarith

/-- The fractional part is below one. -/
lemma fract_lt_one (q : ℚ) : fract q < 1 := by
  unfold fract
  have := Int.lt_floor_add_one q
  push_cast at this ⊢
  linarith

/-- The modelled `uniform` stays in its bounds. -/
lemma uniform_bounds (a b : ℚ) (s : ℚ) (hab : a ≤ b) :
    a ≤ uniform a b s ∧ uniform a b s ≤ b := by
  unfold uniform
  have h0 := fract_nonneg s
  have h1 := fract_lt_one s
  constructor
  · nlinarith
  · nlinarith

/-! ### The claims -/

/-- C1: for every callable whose body always returns a value that is an
instance of its declared output type on every input of its declared input
type (that type being `int` or `float`), `safe` reports `True` — and the
trial loop reports `True` for any trial count ≥ 0, from any start index. -/
theorem safe_true_of_welltyped (f : PyFunc) (tIn tOut : PyType) (g : RandomSource)
    (hsig : signatureAttr f.annots = .ok (tIn, tOut))
    (htin : tIn = PyType.int ∨ tIn = PyType.float)
    (hbody : ∀ v, isinstance v tIn = true →
      ∃ w, f.body v = .ok w ∧ isinstance w tOut = true) :
    (∀ i n, safeLoop f.body tIn tOut g i n = .ok true) ∧ safe f g = .ok true := by
  have hloop := safeLoop_true_of_welltyped f.body tIn tOut g htin hbody
  refine ⟨hloop, ?_⟩
  simp [safe, hsig, hloop 0 10000]

/-- Witness for C1 at the concrete callable `triple`. -/
theorem safe_true_of_welltyped_witness :
    safe triple ⟨fun _ => 0, fun _ => 0⟩ = .ok true :=
  (safe_true_of_welltyped triple PyType.int PyType.int ⟨fun _ => 0, fun _ => 0⟩ rfl
    (Or.inl rfl)
    (fun v hv => by
      cases v with
      | vint n => exact ⟨.vint (n + n + n), rfl, rfl⟩
      | vfloat x => simp [isinstance] at hv
      | vstr s => simp [isinstance] at hv)).2

/-- C2: `safe` is fail-fast.  If the first `k` trials pass and trial `k`
raises (or its instance check fails), the loop reports `False`, and the
verdict does not depend on the entropy the later, never-attempted trials
would have consumed: any source agreeing with `g` up to index `k` yields
the same `False`.  One failure decides the verdict; nothing is tallied. -/
theorem safe_fail_fast (body : PyVal → Except PyErr PyVal) (tIn tOut : PyType)
    (g gp : RandomSource) (k n : Nat) (e : PyErr)
    (hk : k < n)
    (hagree : ∀ j, j ≤ k → g.ints j = gp.ints j ∧ g.reals j = gp.reals j)
    (hpass : ∀ j, j < k → tryBody body tOut (genValue tIn g j) = .ok ())
    (hfail : tryBody body tOut (genValue tIn g k) = .error e) :
    safeLoop body tIn tOut g 0 n = .ok false ∧
    safeLoop body tIn tOut gp 0 n = .ok false := by
  have hgen : genValue tIn g k = genValue tIn gp k :=
    genValue_congr tIn g gp k (hagree k le_rfl).1 (hagree k le_rfl).2
  constructor
  · exact safeLoop_false_of_fail body tIn tOut g 0 n k hk (by simpa using hfail ▸ (by simp [hfail]))
  · refine safeLoop_false_of_fail body tIn tOut gp 0 n k hk ?_
    rw [Nat.zero_add, ← hgen, hfail]
    simp

/-- Witness for C2: `floor` fails its very first trial when the entropy
stream starts at zero (the generated input is `-65536`). -/
theorem safe_fail_fast_witness :
    safeLoop floor_body PyType.float PyType.int ⟨fun _ => 0, fun _ => 0⟩ 0 10000 = .ok false :=
  (safe_fail_fast floor_body PyType.float PyType.int
    ⟨fun _ => 0, fun _ => 0⟩ ⟨fun _ => 0, fun _ => 0⟩ 0 10000 .assertionError
    (by norm_num)
    (fun j _ => ⟨rfl, rfl⟩)
    (fun j hj => absurd hj (Nat.not_lt_zero j))
    (by
      have h : uniform (-(2 : ℚ) ^ 16) ((2 : ℚ) ^ 16 - 1) 0 = -65536 := by
        simp [uniform, fract]; norm_num
      simp [tryBody, genValue, h, floor_body, isinstance]
      norm_num)).1

/-- C3: `floor` returns its argument unchanged — a float, not an int — on
every non-positive float, so whenever some trial generates a non-positive
input, `safe floor` reports `False`. -/
theorem floor_fails_check (g : RandomSource)
    (hneg : ∃ k, k < 10000 ∧ uniform (-(2 : ℚ) ^ 16) ((2 : ℚ) ^ 16 - 1) (g.reals k) ≤ 0) :
    (∀ x : ℚ, x ≤ 0 → floor_body (.vfloat x) = .ok (.vfloat x) ∧
      isinstance (.vfloat x) PyType.int = false) ∧
    safe floor g = .ok false := by
  have hbad : ∀ x : ℚ, x ≤ 0 → floor_body (.vfloat x) = .ok (.vfloat x) ∧
      isinstance (.vfloat x) PyType.int = false := by
    intro x hx
    constructor
    · simp [floor_body, not_lt.2 hx]
    · rfl
  refine ⟨hbad, ?_⟩
  obtain ⟨k, hk, hku⟩ := hneg
  have hsig : signatureAttr floor.annots = .ok (PyType.float, PyType.int) := rfl
  have : safe floor g = safeLoop floor_body PyType.float PyType.int g 0 10000 := rfl
  rw [this]
  refine safeLoop_false_of_fail floor_body PyType.float PyType.int g 0 10000 k hk ?_
  rw [Nat.zero_add]
  obtain ⟨hb, hi⟩ := hbad _ hku
  simp [tryBody, genValue, hb, hi]

/-- Witness for C3: the zero entropy stream generates `-65536 ≤ 0` on the
first trial. -/
theorem floor_fails_check_witness :
    safe floor ⟨fun _ => 0, fun _ => 0⟩ = .ok false :=
  (floor_fails_check ⟨fun _ => 0, fun _ => 0⟩
    ⟨0, by norm_num, by
      have h : uniform (-(2 : ℚ) ^ 16) ((2 : ℚ) ^ 16 - 1) 0 = -65536 := by
        simp [uniform, fract]; norm_num
      rw [h]; norm_num⟩).2

/-- C4: `triple` returns an integer on every integer input, so `safe`
reports `True` on it no matter what inputs the entropy stream induces. -/
theorem triple_safe (g : RandomSource) :
    (∀ n : Int, triple_body (.vint n) = .ok (.vint (n + n + n)) ∧
      isinstance (.vint (n + n + n)) PyType.int = true) ∧
    safe triple g = .ok true := by
  refine ⟨fun n => ⟨rfl, rfl⟩, ?_⟩
  have hloop := safeLoop_true_of_welltyped triple_body PyType.int PyType.int g
    (Or.inl rfl)
    (fun v hv => by
      cases v with
      | vint n => exact ⟨.vint (n + n + n), rfl, rfl⟩
      | vfloat x => simp [isinstance] at hv
      | vstr s => simp [isinstance] at hv)
  have : safe triple g = safeLoop triple_body PyType.int PyType.int g 0 10000 := rfl
  rw [this, hloop]

/-- C5: every error a trial raises, and every failed instance check, is
caught by the bare `except` and becomes the verdict `False`, regardless of
which error it was; no exception escapes the trial loop, so no error
detail survives. -/
theorem trial_errors_become_false (body : PyVal → Except PyErr PyVal)
    (tIn tOut : PyType) (g : RandomSource) (i n : Nat) (e : PyErr)
    (herr : tryBody body tOut (genValue tIn g i) = .error e) :
    safeLoop body tIn tOut g i (n + 1) = .ok false ∧
    (∀ v w, body v = .ok w → isinstance w tOut = false →
      tryBody body tOut (some v) = .error .assertionError) ∧
    (∀ ip np, ∃ b, safeLoop body tIn tOut g ip np = .ok b) := by
  refine ⟨?_, ?_, fun ip np => safeLoop_exists_ok body tIn tOut g np ip⟩
  · rw [safeLoop_succ, herr]
  · intro v w hw hi
    simp [tryBody, hw, hi]

/-- Witness for C5 at the concrete failing trial of `floor`. -/
theorem trial_errors_become_false_witness :
    safeLoop floor_body PyType.float PyType.int ⟨fun _ => 0, fun _ => 0⟩ 0 (9999 + 1)
      = .ok false :=
  (trial_errors_become_false floor_body PyType.float PyType.int
    ⟨fun _ => 0, fun _ => 0⟩ 0 9999 .assertionError
    (by
      have h : uniform (-(2 : ℚ) ^ 16) ((2 : ℚ) ^ 16 - 1) 0 = -65536 := by
        simp [uniform, fract]; norm_num
      simp [tryBody, genValue, h, floor_body, isinstance]
      norm_num)).1

/-- C6: on the alias declaration `Number = int`, the source-based
extractor returns the alias name `"Number"` for both slots, while the
attribute-based extractor returns the resolved type object `int`, whose
name is not `"Number"`: the two strategies are non-equivalent. -/
theorem signature_strategies_differ :
    signatureAst double_def = .ok ("Number", "Number") ∧
    signatureAttr double_annots = .ok (PyType.int, PyType.int) ∧
    PyType.name PyType.int ≠ "Number" :=
  ⟨rfl, rfl, by decide⟩

/-- Counterexample to C7: on a callable with two annotated parameters both
extractors succeed (silently using the first parameter) instead of
failing. -/
theorem signature_multi_param_no_failure :
    signatureAttr [("x", PyType.int), ("y", PyType.int), ("return", PyType.int)]
      = .ok (PyType.int, PyType.int) ∧
    signatureAst ⟨[("x", some "int"), ("y", some "int")], some "int"⟩
      = .ok ("int", "int") :=
  ⟨rfl, rfl⟩

/-- C7 (amended): signature extraction fails on zero parameters and on
missing annotations; with more than one parameter it does NOT fail but
silently uses the first parameter; whenever it succeeds, both slots are
populated from the declaration's annotations. -/
theorem signature_error_conditions :
    (∀ r, signatureAst ⟨[], r⟩ = .error .indexError) ∧
    (∀ p rest r, signatureAst ⟨(p, none) :: rest, r⟩ = .error .attributeError) ∧
    (∀ p t rest, signatureAst ⟨(p, some t) :: rest, none⟩ = .error .attributeError) ∧
    signatureAttr [] = .error .indexError ∧
    (∀ t, signatureAttr [("return", t)] = .error .indexError) ∧
    (∀ t, signatureAttr [("x", t)] = .error .keyError) ∧
    (∀ x y tx ty tr, x ≠ "return" → y ≠ "return" →
      signatureAttr [(x, tx), (y, ty), ("return", tr)] = .ok (tx, tr)) ∧
    (∀ d p q, signatureAst d = .ok (p, q) →
      ∃ nm rest, d.args = (nm, some p) :: rest ∧ d.returns = some q) := by
  refine ⟨fun r => rfl, fun p rest r => rfl, fun p t rest => rfl, rfl,
    fun t => rfl, fun t => rfl, ?_, ?_⟩
  · intro x y tx ty tr hx hy
    have hx2 : ("return" == x) = false := by
      rw [beq_eq_false_iff_ne]
      exact Ne.symm hx
    have hy2 : ("return" == y) = false := by
      rw [beq_eq_false_iff_ne]
      exact Ne.symm hy
    simp [signatureAttr, List.lookup, hx, hy, hx2, hy2]
  · intro d p q h
    obtain ⟨args, ret⟩ := d
    match args, ret with
    | [], r => simp [signatureAst] at h
    | (nm, none) :: rest, r => simp [signatureAst] at h
    | (nm, some t) :: rest, none => simp [signatureAst] at h
    | (nm, some t) :: rest, some r =>
      simp [signatureAst] at h
      exact ⟨nm, rest, by simp [h.1], by simp [h.2]⟩

/-- Witness for C7 (amended), exercising the multi-parameter clause. -/
theorem signature_error_conditions_witness :
    signatureAttr [("x", PyType.int), ("y", PyType.float), ("return", PyType.str)]
      = .ok (PyType.int, PyType.str) :=
  signature_error_conditions.2.2.2.2.2.2.1 "x" "y" PyType.int PyType.float PyType.str
    (by decide) (by decide)

/-- C8: the generator for `int` yields an integer in `[-2^16, 2^16 - 1]`,
the generator for `float` yields a float in the same range, and no other
declared input type has a generator. -/
theorem generator_bounds (g : RandomSource) (i : Nat) :
    (∃ n : Int, genValue PyType.int g i = some (.vint n) ∧
      -(2 : Int) ^ 16 ≤ n ∧ n ≤ 2 ^ 16 - 1) ∧
    (∃ x : ℚ, genValue PyType.float g i = some (.vfloat x) ∧
      -(2 : ℚ) ^ 16 ≤ x ∧ x ≤ 2 ^ 16 - 1) ∧
    (∀ t, t ≠ PyType.int → t ≠ PyType.float → genValue t g i = none) := by
  refine ⟨⟨_, rfl, ?_, ?_⟩, ⟨_, rfl, ?_, ?_⟩, ?_⟩
  · exact (randint_bounds _ _ _ (by norm_num)).1
  · exact (randint_bounds _ _ _ (by norm_num)).2
  · exact (uniform_bounds _ _ _ (by norm_num)).1
  · exact (uniform_bounds _ _ _ (by norm_num)).2
  · intro t h1 h2
    cases t <;> simp_all [genValue]

/-- Witness for C8, exercising the no-generator clause at type `str`. -/
theorem generator_bounds_witness :
    genValue PyType.str ⟨fun _ => 0, fun _ => 0⟩ 0 = none :=
  (generator_bounds ⟨fun _ => 0, fun _ => 0⟩ 0).2.2 PyType.str (by decide) (by decide)

/-- C9: for a callable with a successfully extracted signature and a
declared input type of `int` or `float`, `safe` terminates with exactly
one boolean: `True` precisely when all 10000 trials pass, `False` as soon
as one fails; the loop itself never raises. -/
theorem safe_terminates_with_verdict (f : PyFunc) (g : RandomSource) (tIn tOut : PyType)
    (hsig : signatureAttr f.annots = .ok (tIn, tOut))
    (htin : tIn = PyType.int ∨ tIn = PyType.float) :
    ∃ b : Bool, safe f g = .ok b ∧
      (b = true ↔ ∀ j, j < 10000 → tryBody f.body tOut (genValue tIn g j) = .ok ()) := by
  obtain ⟨b, hb⟩ := safeLoop_exists_ok f.body tIn tOut g 10000 0
  refine ⟨b, by simp [safe, hsig, hb], ?_, ?_⟩
  · intro hbt
    subst hbt
    have hall := (safeLoop_true_iff f.body tIn tOut g 10000 0).1 hb
    intro j hj
    simpa using hall j hj
  · intro hall
    have hres : safeLoop f.body tIn tOut g 0 10000 = .ok true :=
      (safeLoop_true_iff f.body tIn tOut g 10000 0).2
        (fun j hj => by simpa using hall j hj)
    rw [hb] at hres
    exact Except.ok.inj hres

/-- Witness for C9 at the concrete callable `triple`. -/
theorem safe_terminates_with_verdict_witness :
    ∃ b : Bool, safe triple ⟨fun _ => 0, fun _ => 0⟩ = .ok b ∧
      (b = true ↔ ∀ j, j < 10000 →
        tryBody triple_body PyType.int
          (genValue PyType.int ⟨fun _ => 0, fun _ => 0⟩ j) = .ok ()) :=
  safe_terminates_with_verdict triple ⟨fun _ => 0, fun _ => 0⟩ PyType.int PyType.int
    rfl (Or.inl rfl)

/-- C10: when the extracted input type is neither `int` nor `float`, no
generator branch runs, the first trial raises NameError on the unbound
input, the catch-all turns it into `False`, and `safe` reports `False` on
the very first trial. -/
theorem unhandled_input_type_false (f : PyFunc) (g : RandomSource) (tIn tOut : PyType)
    (hsig : signatureAttr f.annots = .ok (tIn, tOut))
    (h1 : tIn ≠ PyType.int) (h2 : tIn ≠ PyType.float) :
    genValue tIn g 0 = none ∧
    tryBody f.body tOut (genValue tIn g 0) = .error .nameError ∧
    (∀ i n, safeLoop f.body tIn tOut g i (n + 1) = .ok false) ∧
    safe f g = .ok false := by
  have hstr : tIn = PyType.str := by cases tIn <;> simp_all
  subst hstr
  have htb : ∀ i, tryBody f.body tOut (genValue PyType.str g i) = .error .nameError :=
    fun i => rfl
  have hloop : ∀ i n, safeLoop f.body PyType.str tOut g i (n + 1) = .ok false := by
    intro i n
    rw [safeLoop_succ, htb i]
  refine ⟨rfl, rfl, hloop, ?_⟩
  have hsafe : safe f g = safeLoop f.body PyType.str tOut g 0 10000 := by
    simp [safe, hsig]
  rw [hsafe]
  exact hloop 0 9999

/-- Witness for C10 at the `str`-annotated callable `shout`. -/
theorem unhandled_input_type_false_witness :
    safe shout ⟨fun _ => 0, fun _ => 0⟩ = .ok false :=
  (unhandled_input_type_false shout ⟨fun _ => 0, fun _ => 0⟩ PyType.str PyType.str
    rfl (by decide) (by decide)).2.2.2

end TypeAnnotDemo
